import Mathlib

/-!
Verification development for the Georef reindexing script
(`service/management/utils_script.py`).

The script maintains, per logical collection (provinces, streets, ...), a
stable Elasticsearch alias that points at a versioned physical index.  A
reindex run fetches a dataset, validates its version, compares freshness
via a timestamp embedded in index names, bulk-creates documents into a new
index, atomically swaps the alias, deletes the old index, and writes a
local backup snapshot.

This file gives a shallow embedding of that code:

* Python dicts holding JSON documents become association lists
  `List (String × Value)` with opaque values;
* the Elasticsearch client becomes explicit state (`EsState`: which
  physical indices the collection's alias points at, plus an injected
  failure flag for `indices.delete`) together with an oracle for per-item
  bulk responses, and every engine call is recorded in an `Effect` trace;
* Python exceptions become the `PyResult` sum: a function that can raise
  returns `PyResult α` (or `Option` where the only failure is a raise);
* Python's `str.split(c)` for a one-character separator and `int(...)` on
  the result are modelled character-level (`splitOnChar`, `parseNat?`) so
  that every definition evaluates by kernel reduction.
-/

namespace Georef

/-- An opaque JSON scalar stored in a document field.  The script treats
document values opaquely except for `doc['id']`, which it passes to the
engine as the document id, so two constructors suffice. -/
inductive Value where
  | vStr : String → Value
  | vNat : Nat → Value
deriving DecidableEq, Repr

/-- A raw document: a Python dict as an insertion-ordered association
list with (assumed) unique keys. -/
abbrev Doc := List (String × Value)

/-- `FILE_VERSION` from the source: the ETL file version this API version
is compatible with. -/
def FILE_VERSION : String := "2.0.0"

/-- Python's `s.split(sep)` for a single-character separator, on the
character list of the string.  Like Python, splitting the empty string
yields one empty field, and separators at the ends yield empty fields. -/
def splitOnChar (sep : Char) : List Char → List (List Char)
  | [] => [[]]
  | c :: rest =>
    let r := splitOnChar sep rest
    if c = sep then [] :: r
    else
      match r with
      | [] => [[c]]
      | g :: gs => (c :: g) :: gs

/-- Python's `int(s)` restricted to the non-negative case: succeeds
exactly on a nonempty all-digit string (a raise becomes `none`). -/
def parseNat? (cs : List Char) : Option Nat :=
  if cs = [] then none
  else if cs.all Char.isDigit then
    some (cs.foldl (fun n c => n * 10 + (c.toNat - 48)) 0)
  else none

/-- The timestamp embedded in an index name: `int(name.split('-')[-1])`,
with `none` for a raise. -/
def indexTimestamp (index : String) : Option Nat :=
  match (splitOnChar '-' index.toList).getLast? with
  | some cs => parseNat? cs
  | none => none

/-- The major component of a semantic version string:
`version.split('.')[0]` (`split` never returns an empty list). -/
def majorOf (v : String) : List Char :=
  (splitOnChar '.' v.toList).headD []

/-- `'{}-{}-{}'.format(self.alias, uuid.uuid4().hex[:8], timestamp)`, with
the random hex token passed in explicitly. -/
def mkIndexName (aliasName hex : String) (timestamp : Nat) : String :=
  aliasName ++ "-" ++ hex ++ "-" ++ toString timestamp

/-- A fetched dataset (`data`): its `timestamp` field, its `version`
field, and the document list found under the collection's `docs_key`. -/
structure Dataset where
  timestamp : Nat
  version : String
  docs : List Doc
deriving DecidableEq, Repr

/-- The per-collection configuration held by a `GeorefIndex` instance.
`mapping` is the opaque Elasticsearch mapping body. -/
structure GeorefIndex where
  aliasName : String
  filepath : String
  backup_filepath : String
  mapping : String
  excludes : List String
  docs_key : String
deriving DecidableEq, Repr

/-- `GeorefIndex.filter_doc`: the dict comprehension keeping every key
not listed in `excludes`, preserving order and values. -/
def filter_doc (excludes : List String) (doc : Doc) : Doc :=
  doc.filter (fun kv => kv.1 ∉ excludes)

/-- One action yielded by `bulk_update_generator`. -/
structure Action where
  opType : String
  docType : String
  id : Value
  index : String
  source : Doc
deriving DecidableEq, Repr

/-- `GeorefIndex.bulk_update_generator`: for each document, filter the
excluded fields, then build a `create` action whose `_id` is read from
the *filtered* document.  `doc['id']` on a document lacking the key
raises `KeyError`, which aborts the whole generator run: the result is
`none` exactly when some filtered document has no `id` key. -/
def bulk_update_generator (excludes : List String) (index : String) :
    List Doc → Option (List Action)
  | [] => some []
  | original :: rest =>
    let doc := filter_doc excludes original
    match doc.lookup "id" with
    | none => none
    | some i =>
      (bulk_update_generator excludes index rest).map
        (fun acts =>
          { opType := "create", docType := "_doc", id := i,
            index := index, source := doc } :: acts)

/-- The engine's answer for one bulk item, as read by `insert_documents`:
`ok` from `helpers.streaming_bulk`, `response['create']['result']` and
`response['create']['_id']`. -/
structure BulkResponse where
  ok : Bool
  result : String
  id : Value
deriving DecidableEq, Repr

/-- The counts logged at the end of `insert_documents`, plus the ids of
the documents whose creation the engine reported as failed. -/
structure IngestOutcome where
  processed : Nat
  created : Nat
  errored : Nat
  errorIds : List Value
deriving DecidableEq, Repr

/-- Whether a streamed bulk item counts as a creation:
`ok and response['create']['result'] == 'created'`. -/
def respCreated (r : BulkResponse) : Bool :=
  r.ok && r.result == "created"

/-- `GeorefIndex.insert_documents`: drive the generator through
`helpers.streaming_bulk` (modelled by the oracle `engine`, one response
per submitted action, indexed by position) with `raise_on_error=False`,
counting creations and errors; `processed` is `len(docs)`.  A `KeyError`
raised by the generator mid-stream propagates (`none`): the summary is
never produced. -/
def insert_documents (engine : Nat → Action → BulkResponse)
    (excludes : List String) (index : String) (docs : List Doc) :
    Option IngestOutcome :=
  (bulk_update_generator excludes index docs).map (fun actions =>
    let resps := actions.mapIdx (fun i a => engine i a)
    { processed := docs.length
      created := (resps.filter respCreated).length
      errored := (resps.filter (fun r => !(respCreated r))).length
      errorIds := (resps.filter (fun r => !(respCreated r))).map (·.id) })

/-- The exceptions the embedded engine calls can raise: `keyError` for
`doc['id']` on a document without the key, `valueError` for `int(...)` on
a non-numeric timestamp suffix, `deleteError` for a failing
`es.indices.delete`. -/
inductive EngineError where
  | keyError
  | valueError
  | deleteError
deriving DecidableEq, Repr

/-- A Python computation that either returns a value or raises. -/
inductive PyResult (α : Type) where
  | ok : α → PyResult α
  | exc : EngineError → PyResult α
deriving DecidableEq, Repr

/-- One entry of the `actions` list passed to
`es.indices.update_aliases`. -/
inductive AliasOp where
  | remove (index : String) (aliasName : String)
  | add (index : String) (aliasName : String)
deriving DecidableEq, Repr

/-- The engine-side state the script interacts with, restricted to one
collection: the list of physical indices its alias currently points at
(empty list = the alias does not exist), the indices created so far, and
an injected failure flag for `es.indices.delete`. -/
structure EsState where
  aliasBinding : List String
  createdIndices : List String
  deleteFails : Bool
deriving DecidableEq, Repr

/-- Elasticsearch semantics of one alias action on the set of indices a
given alias points at: `remove` detaches the alias from that index,
`add` attaches it (a no-op when already attached). -/
def applyAliasOp (aliasName : String) (binding : List String) :
    AliasOp → List String
  | .remove idx al =>
    if al = aliasName then binding.filter (fun i => i ≠ idx) else binding
  | .add idx al =>
    if al = aliasName then
      (if idx ∈ binding then binding else binding ++ [idx])
    else binding

/-- The `alias_ops` list built by `GeorefIndex.update_aliases`: a
`remove` action when `old_index` is truthy (not `None`, not empty),
always followed by an `add` action. -/
def update_aliases_ops (aliasName index : String) (oldIndex : Option String) :
    List AliasOp :=
  (match oldIndex with
   | some old => if old = "" then [] else [AliasOp.remove old aliasName]
   | none => []) ++ [AliasOp.add index aliasName]

/-- An engine call or filesystem write performed by the script, recorded
for the run trace. -/
inductive Effect where
  | effCreateIndex (index : String)
  | effInsertDocs (index : String) (outcome : IngestOutcome)
  | effUpdateAliases (ops : List AliasOp)
  | effDeleteIndex (index : String)
  | effWriteBackup (timestamp : Nat) (version : String)
deriving DecidableEq, Repr

/-- `GeorefIndex.update_aliases`: build `alias_ops` and submit them in a
single `es.indices.update_aliases` call (one engine effect carrying the
whole list, applied atomically to the binding). -/
def update_aliases (aliasName index : String) (oldIndex : Option String)
    (binding : List String) : List String × List Effect :=
  let ops := update_aliases_ops aliasName index oldIndex
  (ops.foldl (applyAliasOp aliasName) binding, [Effect.effUpdateAliases ops])

/-- `GeorefIndex.check_index_newer`: always true when `old_index` is
falsy; otherwise compare `datetime.fromtimestamp(int(name.split('-')[-1]))`
of both names (`fromtimestamp` is strictly monotone on its integer
argument, so the comparison is the comparison of the parsed integers);
`int` on a non-numeric suffix raises. -/
def check_index_newer (newIndex : String) (oldIndex : Option String) :
    PyResult Bool :=
  match oldIndex with
  | none => .ok true
  | some old =>
    if old = "" then .ok true
    else
      match indexTimestamp newIndex, indexTimestamp old with
      | some n, some o => .ok (decide (n > o))
      | _, _ => .exc .valueError

/-- `GeorefIndex.get_old_index`: `None` when no alias with that name
exists, otherwise the first key of `es.indices.get_alias(...)`. -/
def get_old_index (binding : List String) : Option String :=
  binding.head?

/-- The outcome tag of one `create_or_reindex_with_data` run; each tag
labels one `return` site of the source (`success` is `return True`, the
others are the `return False` sites). -/
inductive ReindexOutcome where
  | emptyData
  | incompatibleVersion
  | staleData
  | success
deriving DecidableEq, Repr

/-- The observable result of one reindex attempt: the returned value (or
the raised exception), the engine state afterwards, and the trace of
engine/filesystem effects that actually happened before returning or
raising. -/
structure RunResult where
  result : PyResult ReindexOutcome
  st : EsState
  trace : List Effect
deriving DecidableEq, Repr

/-- Lines 170-194 of `create_or_reindex_with_data`, after the version
check passed: build the new index name, resolve the old one, optionally
check freshness, then create the index, bulk-insert, swap the alias in
one call, and delete the old index when one existed (`if old_index:`). -/
def reindex_pipeline (cfg : GeorefIndex) (engine : Nat → Action → BulkResponse)
    (hex : String) (st : EsState) (d : Dataset) (checkTimestamp : Bool) :
    RunResult :=
  let newIndex := mkIndexName cfg.aliasName hex d.timestamp
  let oldIndex := get_old_index st.aliasBinding
  let fresh : PyResult Bool :=
    if checkTimestamp then check_index_newer newIndex oldIndex else .ok true
  match fresh with
  | .exc e => ⟨.exc e, st, []⟩
  | .ok false => ⟨.ok .staleData, st, []⟩
  | .ok true =>
    let st1 : EsState := { st with createdIndices := st.createdIndices ++ [newIndex] }
    let tr1 := [Effect.effCreateIndex newIndex]
    match insert_documents engine cfg.excludes newIndex d.docs with
    | none => ⟨.exc .keyError, st1, tr1⟩
    | some outcome =>
      let swapped := update_aliases cfg.aliasName newIndex oldIndex st1.aliasBinding
      let st2 : EsState := { st1 with aliasBinding := swapped.1 }
      let tr2 := tr1 ++ [Effect.effInsertDocs newIndex outcome] ++ swapped.2
      match oldIndex with
      | none => ⟨.ok .success, st2, tr2⟩
      | some old =>
        if old = "" then ⟨.ok .success, st2, tr2⟩
        else if st2.deleteFails then ⟨.exc .deleteError, st2, tr2⟩
        else ⟨.ok .success, st2, tr2 ++ [Effect.effDeleteIndex old]⟩

/-- `GeorefIndex.create_or_reindex_with_data`: falsy data is "no data to
index" (`return False`); a dataset whose major version differs from
`FILE_VERSION`'s major is skipped (`return False`); otherwise run the
pipeline above. -/
def create_or_reindex_with_data (cfg : GeorefIndex)
    (engine : Nat → Action → BulkResponse) (hex : String) (st : EsState)
    (data : Option Dataset) (checkTimestamp : Bool) : RunResult :=
  match data with
  | none => ⟨.ok .emptyData, st, []⟩
  | some d =>
    if majorOf d.version ≠ majorOf FILE_VERSION then
      ⟨.ok .incompatibleVersion, st, []⟩
    else
      reindex_pipeline cfg engine hex st d checkTimestamp

/-- The `write_backup` effect for the data last fetched (`write_backup`
is only reached with truthy data, so the `none` case is vacuous). -/
def backupWriteEffect : Option Dataset → List Effect
  | some d => [Effect.effWriteBackup d.timestamp d.version]
  | none => []

/-- `GeorefIndex.create_or_reindex`: try the primary source with the
freshness check enabled iff not forced; when forced and the first
attempt is not ok, retry with the backup source and no freshness check;
finally, `if ok: self.write_backup(data)` with `data` being whatever was
fetched last.  An exception propagates out (it is caught by the caller,
`run_index`). -/
def create_or_reindex (cfg : GeorefIndex)
    (engine : Nat → Action → BulkResponse) (hexPrimary hexBackup : String)
    (primaryData backupData : Option Dataset) (forced : Bool)
    (st : EsState) : RunResult :=
  let r1 := create_or_reindex_with_data cfg engine hexPrimary st primaryData !forced
  match r1.result with
  | .exc _ => r1
  | .ok out1 =>
    if forced && out1 ≠ ReindexOutcome.success then
      let r2 := create_or_reindex_with_data cfg engine hexBackup r1.st backupData false
      match r2.result with
      | .exc _ => ⟨r2.result, r2.st, r1.trace ++ r2.trace⟩
      | .ok out2 =>
        if out2 = ReindexOutcome.success then
          ⟨r2.result, r2.st, r1.trace ++ r2.trace ++ backupWriteEffect backupData⟩
        else
          ⟨r2.result, r2.st, r1.trace ++ r2.trace⟩
    else
      if out1 = ReindexOutcome.success then
        ⟨r1.result, r1.st, r1.trace ++ backupWriteEffect primaryData⟩
      else r1

/-- The inputs of one collection's reindex inside a batch run: its
configuration, the two datasets its sources would yield (`none` for a
fetch/parse failure), the random hex tokens, and the engine state for
its alias. -/
structure CollectionRun where
  cfg : GeorefIndex
  hexPrimary : String
  hexBackup : String
  primaryData : Option Dataset
  backupData : Option Dataset
  st : EsState
deriving DecidableEq, Repr

/-- The body of the `for index in indices:` loop of `run_index`:
`create_or_reindex` wrapped in `try/except Exception`, so the result is
total — a raised exception is caught, logged, and carried in the
result's `result` field instead of propagating. -/
def process_collection (engine : Nat → Action → BulkResponse) (forced : Bool)
    (c : CollectionRun) : RunResult :=
  create_or_reindex c.cfg engine c.hexPrimary c.hexBackup
    c.primaryData c.backupData forced c.st

/-- `run_index`: process every collection in order, each one inside its
own `try/except`. -/
def run_index (engine : Nat → Action → BulkResponse) (forced : Bool)
    (cols : List CollectionRun) : List RunResult :=
  cols.map (process_collection engine forced)


/-- A bulk-response oracle that reports every submitted create as
successful. -/
def engineAllCreated : Nat → Action → BulkResponse :=
  fun _ a => { ok := true, result := "created", id := a.id }

/-- A bulk-response oracle that fails items by position: item `i` is
reported failed iff `i ∈ failAt`. -/
def engineFailAt (failAt : List Nat) : Nat → Action → BulkResponse :=
  fun i a =>
    if i ∈ failAt then { ok := false, result := "", id := a.id }
    else { ok := true, result := "created", id := a.id }

/-- A 100-document input in which exactly 3 documents lack an `id`
field: 97 well-formed documents followed by 3 without the key. -/
def docs100 : List Doc :=
  List.replicate 97 [("id", Value.vStr "ok"), ("nombre", Value.vStr "n")] ++
    List.replicate 3 [("nombre", Value.vStr "sin-id")]

/-- Whether an effect is a snapshot (backup file) write. -/
def isWriteBackup : Effect → Bool
  | .effWriteBackup _ _ => true
  | _ => false

/-- The collection configuration of the concrete runs below (the
`provincias` collection, no excluded fields). -/
def cfgEx : GeorefIndex :=
  { aliasName := "provincias", filepath := "http://x/provincias.json",
    backup_filepath := "backups/provincias.json", mapping := "map-state",
    excludes := [], docs_key := "entidades" }

/-- A concrete valid dataset: timestamp 9, version 2.1.0 (same major as
`FILE_VERSION`, different minor), one document. -/
def dsEx : Dataset :=
  { timestamp := 9, version := "2.1.0", docs := [[("id", Value.vStr "1")]] }

/-- A concrete street document carrying a postal code (the excluded
field of the `calles` collection). -/
def docEx7 : Doc :=
  [("id", Value.vStr "7"), ("nombre", Value.vStr "x"),
   ("codigo_postal", Value.vStr "1000")]

/-- The single action the generator yields for `docEx7` with
`codigo_postal` excluded. -/
def actionEx7 : Action :=
  { opType := "create", docType := "_doc", id := Value.vStr "7",
    index := "calles-aa-1",
    source := [("id", Value.vStr "7"), ("nombre", Value.vStr "x")] }

-- sanity checks on concrete inputs
example : bulk_update_generator ["cp"] "i" [[("id", .vStr "7"), ("cp", .vNat 1)]] =
    some [{ opType := "create", docType := "_doc", id := .vStr "7", index := "i",
            source := [("id", .vStr "7")] }] := by decide

example : bulk_update_generator [] "i" [[("nombre", .vStr "x")]] = none := by decide

example : insert_documents (fun _ a => ⟨true, "created", a.id⟩) [] "i"
    [[("id", .vStr "1")], [("id", .vStr "2")]] =
    some { processed := 2, created := 2, errored := 0, errorIds := [] } := by decide

example : indexTimestamp "provincias-abcd1234-500" = some 500 := by decide

example : indexTimestamp "" = none := by decide

example : majorOf "2.0.0" = ['2'] := by decide

example : majorOf "1.9.7" = ['1'] := by decide

-- sanity checks of the orchestration on concrete inputs
example :
    check_index_newer "provincias-aa-7" (some "provincias-bb-7") = .ok false := by
  decide

example :
    check_index_newer "provincias-aa-8" (some "provincias-bb-7") = .ok true := by
  decide

example : check_index_newer "provincias-aa-7" none = .ok true := by decide

example :
    update_aliases "provincias" "provincias-aa-8" (some "provincias-bb-7")
      ["provincias-bb-7"] =
    (["provincias-aa-8"],
     [Effect.effUpdateAliases
       [AliasOp.remove "provincias-bb-7" "provincias",
        AliasOp.add "provincias-aa-8" "provincias"]]) := by decide


theorem lookup_filter_doc (excludes : List String) (doc : Doc) (k : String) :
    List.lookup k (filter_doc excludes doc) =
      if k ∈ excludes then none else List.lookup k doc := by
  induction doc with
  | nil => simp [filter_doc]
  | cons kv rest ih =>
    obtain ⟨a, b⟩ := kv
    by_cases hk : a ∈ excludes
    · by_cases hke : k ∈ excludes
      · simp [filter_doc, List.filter_cons, hk, hke] at ih ⊢
        exact ih
      · have hka : (k == a) = false := by
          have h1 : k ≠ a := fun h => hke (h ▸ hk)
          simp [h1]
        simp [filter_doc, List.filter_cons, hk, hke, List.lookup_cons, hka] at ih ⊢
        exact ih
    · by_cases hka : k = a
      · subst hka
        have hke : k ∉ excludes := hk
        simp [filter_doc, List.filter_cons, hk, hke, List.lookup_cons]
      · have hbeq : (k == a) = false := by simp [hka]
        by_cases hke : k ∈ excludes
        · simp [filter_doc, List.filter_cons, hk, hke, List.lookup_cons, hbeq] at ih ⊢
          exact ih
        · simp [filter_doc, List.filter_cons, hk, hke, List.lookup_cons, hbeq] at ih ⊢
          exact ih

theorem bulk_update_generator_isSome (excludes : List String) (index : String)
    (docs : List Doc) :
    (bulk_update_generator excludes index docs).isSome ↔
      ∀ d ∈ docs, ((filter_doc excludes d).lookup "id").isSome := by
  induction docs with
  | nil => simp [bulk_update_generator]
  | cons d rest ih =>
    simp only [bulk_update_generator]
    cases hid : List.lookup "id" (filter_doc excludes d) with
    | none =>
      simp only [Option.isSome_none, Bool.false_eq_true, false_iff]
      intro h
      have h1 := h d (List.mem_cons_self d rest)
      rw [hid] at h1
      simp at h1
    | some i =>
      constructor
      · intro h d' hd'
        rcases List.mem_cons.mp hd' with h1 | h1
        · subst h1; simp [hid]
        · refine (ih.mp ?_) d' h1
          cases hgen : bulk_update_generator excludes index rest
          · rw [hgen] at h; simp at h
          · simp
      · intro h
        have hrest := ih.mpr (fun d' hd' => h d' (List.mem_cons_of_mem _ hd'))
        cases hgen : bulk_update_generator excludes index rest
        · rw [hgen] at hrest; simp at hrest
        · simp [hgen]

theorem bulk_update_generator_mem (excludes : List String) (index : String) :
    ∀ (docs : List Doc) (actions : List Action),
      bulk_update_generator excludes index docs = some actions →
      ∀ a ∈ actions, ∃ d ∈ docs,
        (filter_doc excludes d).lookup "id" = some a.id ∧
        a = { opType := "create", docType := "_doc", id := a.id,
              index := index, source := filter_doc excludes d } := by
  intro docs
  induction docs with
  | nil =>
    intro actions h a ha
    simp [bulk_update_generator] at h
    subst h
    simp at ha
  | cons d rest ih =>
    intro actions h a ha
    simp only [bulk_update_generator] at h
    cases hid : List.lookup "id" (filter_doc excludes d) with
    | none => rw [hid] at h; exact absurd h (by simp)
    | some i =>
      rw [hid] at h
      cases hgen : bulk_update_generator excludes index rest with
      | none => rw [hgen] at h; exact absurd h (by simp)
      | some acts =>
        rw [hgen] at h
        simp only [Option.map_some'] at h
        cases h
        rcases List.mem_cons.mp ha with h1 | h1
        · refine ⟨d, List.mem_cons_self d rest, ?_, ?_⟩
          · rw [h1]; exact hid
          · rw [h1]
        · obtain ⟨d', hd', h2, h3⟩ := ih acts hgen a h1
          exact ⟨d', List.mem_cons_of_mem _ hd', h2, h3⟩

theorem bulk_update_generator_length (excludes : List String) (index : String) :
    ∀ (docs : List Doc) (actions : List Action),
      bulk_update_generator excludes index docs = some actions →
      actions.length = docs.length := by
  intro docs
  induction docs with
  | nil =>
    intro actions h
    simp [bulk_update_generator] at h
    subst h
    rfl
  | cons d rest ih =>
    intro actions h
    simp only [bulk_update_generator] at h
    cases hid : List.lookup "id" (filter_doc excludes d) with
    | none => rw [hid] at h; exact absurd h (by simp)
    | some i =>
      rw [hid] at h
      cases hgen : bulk_update_generator excludes index rest with
      | none => rw [hgen] at h; exact absurd h (by simp)
      | some acts =>
        rw [hgen] at h
        simp only [Option.map_some'] at h
        rw [← Option.some.inj h]
        simp [ih acts hgen]

/-- C7: every operation the generator submits is a `create` (never an
update/upsert) targeting the right index; its source is exactly the
original document minus the excluded fields (all other key-value pairs
preserved); its engine document id is the document's `id` field; and no
excluded field ever appears in a submitted payload. -/
theorem c7_create_ops_exact (excludes : List String) (index : String)
    (docs : List Doc) (actions : List Action)
    (h : bulk_update_generator excludes index docs = some actions) :
    ∀ a ∈ actions,
      a.opType = "create" ∧
      a.index = index ∧
      (∃ d ∈ docs,
        a.source = filter_doc excludes d ∧
        List.lookup "id" d = some a.id ∧
        (∀ k, k ∉ excludes → List.lookup k a.source = List.lookup k d)) ∧
      (∀ k ∈ excludes, List.lookup k a.source = none) := by
  intro a ha
  obtain ⟨d, hd, hid, hshape⟩ :=
    bulk_update_generator_mem excludes index docs actions h a ha
  have hsource : a.source = filter_doc excludes d := by rw [hshape]
  have hidmem : "id" ∉ excludes := by
    intro hmem
    rw [lookup_filter_doc, if_pos hmem] at hid
    exact Option.noConfusion hid
  refine ⟨by rw [hshape], by rw [hshape], ⟨d, hd, hsource, ?_, ?_⟩, ?_⟩
  · rw [lookup_filter_doc, if_neg hidmem] at hid
    exact hid
  · intro k hk
    rw [hsource, lookup_filter_doc, if_neg hk]
  · intro k hk
    rw [hsource, lookup_filter_doc, if_pos hk]

/-- Witness for C7 at a concrete street document: the postal code is
excluded, the submitted source keeps the other fields, the id is the
document's `id`. -/
theorem c7_create_ops_exact_witness :
    actionEx7.opType = "create" ∧
    actionEx7.index = "calles-aa-1" ∧
    (∃ d ∈ [docEx7],
      actionEx7.source = filter_doc ["codigo_postal"] d ∧
      List.lookup "id" d = some actionEx7.id ∧
      (∀ k, k ∉ ["codigo_postal"] →
        List.lookup k actionEx7.source = List.lookup k d)) ∧
    (∀ k ∈ ["codigo_postal"], List.lookup k actionEx7.source = none) :=
  c7_create_ops_exact ["codigo_postal"] "calles-aa-1" [docEx7] [actionEx7]
    (by decide) actionEx7 (List.mem_singleton.mpr rfl)

/-- C9: the generator reads the engine document id from the document
*after* excluded-field removal, so it runs to completion iff every
filtered document still has an `id` key; a document lacking `id`, or an
exclusion list containing `id` (with at least one document), makes it
raise instead of producing a per-document error entry. -/
theorem c9_generator_requires_id (excludes : List String) (index : String)
    (docs : List Doc) :
    ((bulk_update_generator excludes index docs).isSome ↔
      ∀ d ∈ docs, ((filter_doc excludes d).lookup "id").isSome) ∧
    (∀ d ∈ docs, List.lookup "id" d = none →
      bulk_update_generator excludes index docs = none) ∧
    ("id" ∈ excludes → docs ≠ [] →
      bulk_update_generator excludes index docs = none) := by
  refine ⟨bulk_update_generator_isSome excludes index docs, ?_, ?_⟩
  · intro d hd hnone
    rw [← Option.not_isSome_iff_eq_none, bulk_update_generator_isSome]
    intro hall
    have h1 := hall d hd
    rw [lookup_filter_doc] at h1
    by_cases hmem : "id" ∈ excludes
    · rw [if_pos hmem] at h1; simp at h1
    · rw [if_neg hmem, hnone] at h1; simp at h1
  · intro hmem hne
    rw [← Option.not_isSome_iff_eq_none, bulk_update_generator_isSome]
    intro hall
    obtain ⟨d, rest, rfl⟩ := List.exists_cons_of_ne_nil hne
    have h1 := hall d (List.mem_cons_self d rest)
    rw [lookup_filter_doc, if_pos hmem] at h1
    simp at h1

/-- Witness for C9: a generator run that succeeds because every filtered
document carries an `id`. -/
theorem c9_generator_requires_id_witness :
    (bulk_update_generator [] "i" [[("id", Value.vStr "1")]]).isSome :=
  ((c9_generator_requires_id [] "i" [[("id", Value.vStr "1")]]).1).mpr
    (by decide)

/-- C1 counterexample: on the claim's own 100-document input with
exactly 3 documents lacking `id`, `insert_documents` does not produce
the outcome `processed=100, created=97, errored=3` — it raises
(`KeyError` from `doc['id']` inside the generator), so no outcome at
all is produced, even with an engine that would create every submitted
document. -/
theorem c1_missing_id_counterexample :
    docs100.length = 100 ∧
    (docs100.filter (fun d => (List.lookup "id" d).isNone)).length = 3 ∧
    insert_documents engineAllCreated [] "provincias-aa-1" docs100 = none := by
  refine ⟨by decide, by decide, by decide⟩

/-- C1 as amended: when every document still carries an `id` after
filtering, per-document errors reported by the engine are collected
without aborting the batch, and the outcome satisfies
`processed` = number of input documents, `created` = number of
engine-successful create operations, `errored` = number of failed ones
(`created + errored = processed`), with one recorded error id per
failed document. -/
theorem c1_ingest_outcome (engine : Nat → Action → BulkResponse)
    (excludes : List String) (index : String) (docs : List Doc)
    (hid : ∀ d ∈ docs, ((filter_doc excludes d).lookup "id").isSome) :
    ∃ actions out,
      bulk_update_generator excludes index docs = some actions ∧
      actions.length = docs.length ∧
      insert_documents engine excludes index docs = some out ∧
      out.processed = docs.length ∧
      out.created =
        ((actions.mapIdx (fun i a => engine i a)).filter respCreated).length ∧
      out.errored =
        ((actions.mapIdx (fun i a => engine i a)).filter
          (fun r => !(respCreated r))).length ∧
      out.created + out.errored = out.processed ∧
      out.errorIds.length = out.errored := by
  obtain ⟨actions, hacts⟩ := Option.isSome_iff_exists.mp
    ((bulk_update_generator_isSome excludes index docs).mpr hid)
  have hlen := bulk_update_generator_length excludes index docs actions hacts
  refine ⟨actions,
    { processed := docs.length,
      created :=
        ((actions.mapIdx (fun i a => engine i a)).filter respCreated).length,
      errored :=
        ((actions.mapIdx (fun i a => engine i a)).filter
          (fun r => !(respCreated r))).length,
      errorIds :=
        ((actions.mapIdx (fun i a => engine i a)).filter
          (fun r => !(respCreated r))).map (fun r => r.id) },
    hacts, hlen, ?_, rfl, rfl, rfl, ?_, ?_⟩
  · unfold insert_documents
    rw [hacts]
    rfl
  · have hpart := @List.length_eq_length_filter_add _
      (actions.mapIdx (fun i a => engine i a)) respCreated
    have hml : (actions.mapIdx (fun i a => engine i a)).length = docs.length := by
      rw [List.length_mapIdx, hlen]
    rw [← hml, hpart]
  · simp

/-- Witness for C1 (amended): two documents, the engine failing the
second item; the outcome partitions `processed = 2` into one creation
and one error. -/
theorem c1_ingest_outcome_witness :
    ∃ actions out,
      bulk_update_generator [] "i"
        [[("id", Value.vStr "1")], [("id", Value.vStr "2")]] = some actions ∧
      actions.length = 2 ∧
      insert_documents (engineFailAt [1]) [] "i"
        [[("id", Value.vStr "1")], [("id", Value.vStr "2")]] = some out ∧
      out.processed = 2 ∧
      out.created =
        ((actions.mapIdx (fun i a => engineFailAt [1] i a)).filter
          respCreated).length ∧
      out.errored =
        ((actions.mapIdx (fun i a => engineFailAt [1] i a)).filter
          (fun r => !(respCreated r))).length ∧
      out.created + out.errored = out.processed ∧
      out.errorIds.length = out.errored :=
  c1_ingest_outcome (engineFailAt [1]) [] "i"
    [[("id", Value.vStr "1")], [("id", Value.vStr "2")]] (by decide)

/-- C4: the freshness check accepts any candidate when no current index
exists; with a current index it accepts iff the candidate's embedded
timestamp strictly exceeds the current one's; in particular two index
names embedding the same timestamp reject each other in both
directions. -/
theorem c4_check_index_newer (c : String) :
    check_index_newer c none = .ok true ∧
    (∀ old tNew tOld, indexTimestamp c = some tNew →
      indexTimestamp old = some tOld →
      check_index_newer c (some old) = .ok (decide (tNew > tOld))) ∧
    (∀ a b t, indexTimestamp a = some t → indexTimestamp b = some t →
      check_index_newer a (some b) = .ok false ∧
      check_index_newer b (some a) = .ok false) := by
  have hts : ∀ s t, indexTimestamp s = some t → s ≠ "" := by
    intro s t h he
    rw [he] at h
    exact Option.noConfusion ((show indexTimestamp "" = none from rfl) ▸ h)
  have hmain : ∀ cand old tNew tOld, indexTimestamp cand = some tNew →
      indexTimestamp old = some tOld →
      check_index_newer cand (some old) = .ok (decide (tNew > tOld)) := by
    intro cand old tNew tOld hc ho
    have hne : ¬ (old = "") := hts old tOld ho
    simp only [check_index_newer, if_neg hne, hc, ho]
  refine ⟨rfl, hmain c, ?_⟩
  intro a b t ha hb
  constructor
  · rw [hmain a b t t ha hb]
    simp
  · rw [hmain b a t t hb ha]
    simp

/-- Witness for C4 at two concrete names sharing timestamp 7. -/
theorem c4_check_index_newer_witness :
    check_index_newer "provincias-aa-7" (some "provincias-bb-7") = .ok false ∧
    check_index_newer "provincias-bb-7" (some "provincias-aa-7") = .ok false :=
  (c4_check_index_newer "provincias-aa-7").2.2 "provincias-aa-7"
    "provincias-bb-7" 7 (by decide) (by decide)

theorem mem_applyAliasOp_add (aliasName newIndex : String) (l : List String)
    (j : String) (hj : j ∈ l) :
    j ∈ applyAliasOp aliasName l (.add newIndex aliasName) := by
  simp only [applyAliasOp, if_true]
  split
  · exact hj
  · exact List.mem_append_left _ hj

theorem mem_applyAliasOp_add_self (aliasName newIndex : String)
    (l : List String) :
    newIndex ∈ applyAliasOp aliasName l (.add newIndex aliasName) := by
  simp only [applyAliasOp, if_true]
  split
  · assumption
  · exact List.mem_append_right _ (List.mem_singleton.mpr rfl)

theorem applyAliasOp_remove_eq (aliasName o : String) (l : List String) :
    applyAliasOp aliasName l (.remove o aliasName) =
      l.filter (fun x => x ≠ o) := by
  simp only [applyAliasOp, if_true]

theorem mem_foldl_add_last (aliasName newIndex : String) (binding : List String)
    (pre : List AliasOp) :
    newIndex ∈ List.foldl (applyAliasOp aliasName) binding
      (pre ++ [.add newIndex aliasName]) := by
  rw [List.foldl_append]
  exact mem_applyAliasOp_add_self aliasName newIndex _

/-- C2: `update_aliases` submits exactly one engine call carrying the
whole action list; that list always contains the `add new` action and
contains a `remove` action iff a (truthy, i.e. nonempty string) old
index was resolved; the single call yields a binding that always
contains the new index (never zero indices), and starting from the
invariant binding (exactly the old index, or no index at all) it ends
at exactly the new index. -/
theorem c2_alias_swap_atomic (aliasName newIndex : String)
    (oldIndex : Option String) (binding : List String) :
    (update_aliases aliasName newIndex oldIndex binding).2 =
      [Effect.effUpdateAliases (update_aliases_ops aliasName newIndex oldIndex)] ∧
    AliasOp.add newIndex aliasName ∈ update_aliases_ops aliasName newIndex oldIndex ∧
    ((∃ o, AliasOp.remove o aliasName ∈
        update_aliases_ops aliasName newIndex oldIndex) ↔
      (∃ o, oldIndex = some o ∧ o ≠ "")) ∧
    newIndex ∈ (update_aliases aliasName newIndex oldIndex binding).1 ∧
    (∀ o, o ≠ "" →
      (update_aliases aliasName newIndex (some o) [o]).1 = [newIndex]) ∧
    (update_aliases aliasName newIndex none []).1 = [newIndex] := by
  refine ⟨rfl, ?_, ?_, ?_, ?_, ?_⟩
  · cases oldIndex with
    | none => simp [update_aliases_ops]
    | some o => by_cases h : o = "" <;> simp [update_aliases_ops, h]
  · constructor
    · rintro ⟨o, ho⟩
      cases oldIndex with
      | none => simp [update_aliases_ops] at ho
      | some o' =>
        by_cases h : o' = "" <;> simp [update_aliases_ops, h] at ho
        exact ⟨o', rfl, h⟩
    · rintro ⟨o, rfl, ho⟩
      exact ⟨o, by simp [update_aliases_ops, ho]⟩
  · exact mem_foldl_add_last aliasName newIndex binding _
  · intro o ho
    simp [update_aliases, update_aliases_ops, applyAliasOp, ho, List.filter_cons]
  · simp [update_aliases, update_aliases_ops, applyAliasOp]

/-- Witness for C2 at a concrete swap with an existing old index. -/
theorem c2_alias_swap_atomic_witness :
    (update_aliases "provincias" "provincias-aa-8" (some "provincias-bb-7")
      ["provincias-bb-7"]).1 = ["provincias-aa-8"] :=
  (c2_alias_swap_atomic "provincias" "provincias-aa-8" (some "provincias-bb-7")
    ["provincias-bb-7"]).2.2.2.2.1 "provincias-bb-7" (by decide)

/-- C10: resolving the current index yields `None` iff no alias exists;
with a nonempty alias mapping it yields exactly the first bound index,
even when the alias resolves to several; the subsequent swap removes the
alias only from that first index, leaving every other bound index still
bound. -/
theorem c10_get_old_index_first (binding : List String)
    (aliasName newIndex : String) :
    (get_old_index binding = none ↔ binding = []) ∧
    (∀ i rest, binding = i :: rest →
      get_old_index binding = some i ∧
      ∀ j ∈ rest, j ≠ i →
        j ∈ (update_aliases aliasName newIndex (some i) binding).1) := by
  constructor
  · cases binding <;> simp [get_old_index]
  · intro i rest hb
    subst hb
    refine ⟨rfl, ?_⟩
    intro j hj hji
    by_cases hi : i = ""
    · show j ∈ List.foldl (applyAliasOp aliasName) (i :: rest)
        (update_aliases_ops aliasName newIndex (some i))
      simp only [update_aliases_ops, if_pos hi, List.nil_append,
        List.foldl_cons, List.foldl_nil]
      exact mem_applyAliasOp_add aliasName newIndex _ j
        (List.mem_cons_of_mem _ hj)
    · show j ∈ List.foldl (applyAliasOp aliasName) (i :: rest)
        (update_aliases_ops aliasName newIndex (some i))
      simp only [update_aliases_ops, if_neg hi, List.cons_append,
        List.nil_append, List.foldl_cons, List.foldl_nil]
      refine mem_applyAliasOp_add aliasName newIndex _ j ?_
      rw [applyAliasOp_remove_eq]
      refine List.mem_filter.mpr ⟨List.mem_cons_of_mem _ hj, ?_⟩
      simp [hji]

/-- Witness for C10: an alias bound to two indices keeps the second one
bound after the swap away from the first. -/
theorem c10_get_old_index_first_witness :
    get_old_index ["provincias-aa-1", "provincias-bb-2"] = some "provincias-aa-1" ∧
    "provincias-bb-2" ∈ (update_aliases "provincias" "provincias-cc-3"
      (some "provincias-aa-1") ["provincias-aa-1", "provincias-bb-2"]).1 := by
  have h := (c10_get_old_index_first ["provincias-aa-1", "provincias-bb-2"]
    "provincias" "provincias-cc-3").2 "provincias-aa-1" ["provincias-bb-2"] rfl
  exact ⟨h.1, h.2 "provincias-bb-2" (List.mem_singleton.mpr rfl) (by decide)⟩

theorem insert_documents_isSome (engine : Nat → Action → BulkResponse)
    (excludes : List String) (index : String) (docs : List Doc)
    (hid : ∀ d ∈ docs, ((filter_doc excludes d).lookup "id").isSome) :
    (insert_documents engine excludes index docs).isSome := by
  unfold insert_documents
  rw [Option.isSome_map']
  exact (bulk_update_generator_isSome excludes index docs).mpr hid

theorem reindex_pipeline_ne_incompatible (cfg : GeorefIndex)
    (engine : Nat → Action → BulkResponse) (hex : String) (st : EsState)
    (d : Dataset) (checkTimestamp : Bool) :
    (reindex_pipeline cfg engine hex st d checkTimestamp).result ≠
      PyResult.ok ReindexOutcome.incompatibleVersion := by
  unfold reindex_pipeline
  dsimp only
  repeat' split
  all_goals simp

/-- C6: for a (present) dataset, the reindex attempt reports the
incompatible-version outcome iff the dataset's major version component
differs from `FILE_VERSION`'s major component (minor/patch differences
are accepted); and on that failure it returns immediately with the
engine state untouched and no engine or filesystem effect — in
particular the previously aliased index is untouched. -/
theorem c6_version_gate (cfg : GeorefIndex)
    (engine : Nat → Action → BulkResponse) (hex : String) (st : EsState)
    (d : Dataset) (checkTimestamp : Bool) :
    ((create_or_reindex_with_data cfg engine hex st (some d) checkTimestamp).result =
        PyResult.ok ReindexOutcome.incompatibleVersion ↔
      majorOf d.version ≠ majorOf FILE_VERSION) ∧
    (majorOf d.version ≠ majorOf FILE_VERSION →
      create_or_reindex_with_data cfg engine hex st (some d) checkTimestamp =
        ⟨PyResult.ok ReindexOutcome.incompatibleVersion, st, []⟩) := by
  by_cases hv : majorOf d.version ≠ majorOf FILE_VERSION
  · refine ⟨?_, fun _ => ?_⟩
    · simp [create_or_reindex_with_data, if_pos hv, hv]
    · simp [create_or_reindex_with_data, if_pos hv]
  · refine ⟨?_, fun h => absurd h hv⟩
    simp only [create_or_reindex_with_data, if_neg hv]
    exact ⟨fun h => absurd h
      (reindex_pipeline_ne_incompatible cfg engine hex st d checkTimestamp),
      fun h => absurd h hv⟩

/-- Witness for C6 at a concrete `1.0.0` dataset against the compiled-in
`2.0.0`: incompatible, and nothing happens. -/
theorem c6_version_gate_witness :
    create_or_reindex_with_data
      { aliasName := "provincias", filepath := "f", backup_filepath := "b",
        mapping := "m", excludes := [], docs_key := "entidades" }
      engineAllCreated "aa"
      { aliasBinding := ["provincias-bb-3"], createdIndices := [],
        deleteFails := false }
      (some { timestamp := 9, version := "1.0.0", docs := [] }) true =
    ⟨PyResult.ok ReindexOutcome.incompatibleVersion,
     { aliasBinding := ["provincias-bb-3"], createdIndices := [],
       deleteFails := false }, []⟩ :=
  (c6_version_gate
      { aliasName := "provincias", filepath := "f", backup_filepath := "b",
        mapping := "m", excludes := [], docs_key := "entidades" }
      engineAllCreated "aa"
      { aliasBinding := ["provincias-bb-3"], createdIndices := [],
        deleteFails := false }
      { timestamp := 9, version := "1.0.0", docs := [] } true).2 (by decide)

theorem reindex_pipeline_noCheck_success (cfg : GeorefIndex)
    (engine : Nat → Action → BulkResponse) (hex : String) (st : EsState)
    (d : Dataset)
    (hid : ∀ doc ∈ d.docs, ((filter_doc cfg.excludes doc).lookup "id").isSome)
    (hdel : st.deleteFails = false) :
    (reindex_pipeline cfg engine hex st d false).result =
      PyResult.ok ReindexOutcome.success := by
  unfold reindex_pipeline
  simp only [Bool.false_eq_true, if_false]
  cases hin : insert_documents engine cfg.excludes
      (mkIndexName cfg.aliasName hex d.timestamp) d.docs with
  | none =>
    exact absurd hin (by
      rw [← Option.not_isSome_iff_eq_none, not_not]
      exact insert_documents_isSome engine cfg.excludes _ d.docs hid)
  | some outcome =>
    dsimp only
    cases hb : st.aliasBinding with
    | nil => simp [get_old_index, hb]
    | cons old rest =>
      simp only [get_old_index, hb, List.head?]
      by_cases ho : old = ""
      · simp [ho]
      · simp [ho, hdel]

/-- C5 (amended): in a forced run whose primary fetch failed and whose
backup dataset is valid, the pipeline completes using the backup data
with the freshness comparison skipped — the conclusion holds for an
arbitrary current alias binding, in particular one whose index embeds an
equal or newer timestamp — but, contrary to the original claim, the
snapshot file IS rewritten: `write_backup` runs whenever the run ends
ok, so the last effect of the run is the backup write of the backup
dataset itself. -/
theorem c5_forced_backup_run (cfg : GeorefIndex)
    (engine : Nat → Action → BulkResponse) (hex1 hex2 : String) (d : Dataset)
    (st : EsState)
    (hv : majorOf d.version = majorOf FILE_VERSION)
    (hid : ∀ doc ∈ d.docs, ((filter_doc cfg.excludes doc).lookup "id").isSome)
    (hdel : st.deleteFails = false) :
    (create_or_reindex cfg engine hex1 hex2 none (some d) true st).result =
      PyResult.ok ReindexOutcome.success ∧
    (create_or_reindex cfg engine hex1 hex2 none (some d) true st).trace.getLast? =
      some (Effect.effWriteBackup d.timestamp d.version) := by
  have hnv : ¬ (majorOf d.version ≠ majorOf FILE_VERSION) := by simp [hv]
  have hr2 : (create_or_reindex_with_data cfg engine hex2 st (some d) false).result =
      PyResult.ok ReindexOutcome.success := by
    simp only [create_or_reindex_with_data, if_neg hnv]
    exact reindex_pipeline_noCheck_success cfg engine hex2 st d hid hdel
  unfold create_or_reindex
  dsimp only
  have h1 : create_or_reindex_with_data cfg engine hex1 st none (!true) =
      ⟨PyResult.ok ReindexOutcome.emptyData, st, []⟩ := rfl
  rw [h1]
  dsimp only
  generalize hr : create_or_reindex_with_data cfg engine hex2 st (some d) false = r2 at hr2
  obtain ⟨res, st2, tr2⟩ := r2
  simp only [RunResult.result] at hr2
  subst hr2
  simp [backupWriteEffect, List.getLast?_concat]

theorem update_aliases_ops_some (aliasName newIndex o : String) (ho : o ≠ "") :
    update_aliases_ops aliasName newIndex (some o) =
      [AliasOp.remove o aliasName, AliasOp.add newIndex aliasName] := by
  simp [update_aliases_ops, ho]

theorem update_aliases_invariant_swap (aliasName newIndex o : String)
    (ho : o ≠ "") :
    (update_aliases aliasName newIndex (some o) [o]).1 = [newIndex] := by
  simp [update_aliases, update_aliases_ops, applyAliasOp, ho, List.filter_cons]

theorem reindex_pipeline_delete_failure (cfg : GeorefIndex)
    (engine : Nat → Action → BulkResponse) (hex : String) (st : EsState)
    (d : Dataset) (old : String) (checkTs : Bool)
    (hid : ∀ doc ∈ d.docs, ((filter_doc cfg.excludes doc).lookup "id").isSome)
    (hb : st.aliasBinding = [old]) (ho : old ≠ "")
    (hdel : st.deleteFails = true)
    (hfr : checkTs = false ∨
      check_index_newer (mkIndexName cfg.aliasName hex d.timestamp) (some old) =
        PyResult.ok true) :
    ∃ out, reindex_pipeline cfg engine hex st d checkTs =
      ⟨PyResult.exc EngineError.deleteError,
       { aliasBinding := [mkIndexName cfg.aliasName hex d.timestamp],
         createdIndices := st.createdIndices ++
           [mkIndexName cfg.aliasName hex d.timestamp],
         deleteFails := true },
       [Effect.effCreateIndex (mkIndexName cfg.aliasName hex d.timestamp),
        Effect.effInsertDocs (mkIndexName cfg.aliasName hex d.timestamp) out,
        Effect.effUpdateAliases
          [AliasOp.remove old cfg.aliasName,
           AliasOp.add (mkIndexName cfg.aliasName hex d.timestamp)
             cfg.aliasName]]⟩ := by
  have hfresh : (if checkTs then
      check_index_newer (mkIndexName cfg.aliasName hex d.timestamp)
        (get_old_index st.aliasBinding) else PyResult.ok true) =
      PyResult.ok true := by
    cases checkTs with
    | false => rfl
    | true =>
      rcases hfr with h | h
      · exact absurd h (by simp)
      · simp only [if_true]
        rw [hb]
        simpa [get_old_index] using h
  simp only [reindex_pipeline]
  rw [hfresh]
  cases hin : insert_documents engine cfg.excludes
      (mkIndexName cfg.aliasName hex d.timestamp) d.docs with
  | none =>
    exact absurd hin (by
      rw [← Option.not_isSome_iff_eq_none, not_not]
      exact insert_documents_isSome engine cfg.excludes _ d.docs hid)
  | some outcome =>
    refine ⟨outcome, ?_⟩
    simp only [get_old_index, hb, List.head?]
    rw [if_neg ho, if_pos hdel]
    rw [update_aliases_invariant_swap cfg.aliasName
      (mkIndexName cfg.aliasName hex d.timestamp) old ho]
    simp [update_aliases, update_aliases_ops_some cfg.aliasName
      (mkIndexName cfg.aliasName hex d.timestamp) old ho, hdel]

/-- C3 (amended): when the alias swap has succeeded and the old index's
deletion then fails, the swap is not rolled back — the alias ends
pointing at exactly the new index and the single atomic alias update is
in the trace — but, contrary to the original claim, the failure is not
contained within the collection: the run ends with the raised exception
(caught only by the batch loop), so the collection is not treated as
successfully reindexed and the snapshot write never happens (the trace
ends at the alias update, with no backup-write effect). -/
theorem c3_delete_failure_aborts (cfg : GeorefIndex)
    (engine : Nat → Action → BulkResponse) (hex1 hex2 : String) (d : Dataset)
    (backup : Option Dataset) (old : String) (st : EsState) (forced : Bool)
    (hv : majorOf d.version = majorOf FILE_VERSION)
    (hid : ∀ doc ∈ d.docs, ((filter_doc cfg.excludes doc).lookup "id").isSome)
    (hb : st.aliasBinding = [old]) (ho : old ≠ "")
    (hdel : st.deleteFails = true)
    (hfr : forced = true ∨
      check_index_newer (mkIndexName cfg.aliasName hex1 d.timestamp) (some old) =
        PyResult.ok true) :
    ∃ out, create_or_reindex cfg engine hex1 hex2 (some d) backup forced st =
      ⟨PyResult.exc EngineError.deleteError,
       { aliasBinding := [mkIndexName cfg.aliasName hex1 d.timestamp],
         createdIndices := st.createdIndices ++
           [mkIndexName cfg.aliasName hex1 d.timestamp],
         deleteFails := true },
       [Effect.effCreateIndex (mkIndexName cfg.aliasName hex1 d.timestamp),
        Effect.effInsertDocs (mkIndexName cfg.aliasName hex1 d.timestamp) out,
        Effect.effUpdateAliases
          [AliasOp.remove old cfg.aliasName,
           AliasOp.add (mkIndexName cfg.aliasName hex1 d.timestamp)
             cfg.aliasName]]⟩ := by
  have hnv : ¬ (majorOf d.version ≠ majorOf FILE_VERSION) := by simp [hv]
  have hfr' : (!forced) = false ∨
      check_index_newer (mkIndexName cfg.aliasName hex1 d.timestamp) (some old) =
        PyResult.ok true := by
    rcases hfr with h | h
    · exact Or.inl (by simp [h])
    · exact Or.inr h
  obtain ⟨out, hp⟩ := reindex_pipeline_delete_failure cfg engine hex1 st d old
    (!forced) hid hb ho hdel hfr'
  have hr1 : create_or_reindex_with_data cfg engine hex1 st (some d) (!forced) =
      ⟨PyResult.exc EngineError.deleteError,
       { aliasBinding := [mkIndexName cfg.aliasName hex1 d.timestamp],
         createdIndices := st.createdIndices ++
           [mkIndexName cfg.aliasName hex1 d.timestamp],
         deleteFails := true },
       [Effect.effCreateIndex (mkIndexName cfg.aliasName hex1 d.timestamp),
        Effect.effInsertDocs (mkIndexName cfg.aliasName hex1 d.timestamp) out,
        Effect.effUpdateAliases
          [AliasOp.remove old cfg.aliasName,
           AliasOp.add (mkIndexName cfg.aliasName hex1 d.timestamp)
             cfg.aliasName]]⟩ := by
    simp only [create_or_reindex_with_data, if_neg hnv]
    exact hp
  refine ⟨out, ?_⟩
  unfold create_or_reindex
  rw [hr1]

/-- Witness for C3 (amended) at the concrete scenario: old index
`provincias-cc-3`, delete failure injected, forced run. -/
theorem c3_delete_failure_aborts_witness :
    ∃ out, create_or_reindex cfgEx engineAllCreated "aaaa" "bbbb" (some dsEx)
        none true ⟨["provincias-cc-3"], [], true⟩ =
      ⟨PyResult.exc EngineError.deleteError,
       { aliasBinding := [mkIndexName cfgEx.aliasName "aaaa" dsEx.timestamp],
         createdIndices := [] ++ [mkIndexName cfgEx.aliasName "aaaa" dsEx.timestamp],
         deleteFails := true },
       [Effect.effCreateIndex (mkIndexName cfgEx.aliasName "aaaa" dsEx.timestamp),
        Effect.effInsertDocs (mkIndexName cfgEx.aliasName "aaaa" dsEx.timestamp) out,
        Effect.effUpdateAliases
          [AliasOp.remove "provincias-cc-3" cfgEx.aliasName,
           AliasOp.add (mkIndexName cfgEx.aliasName "aaaa" dsEx.timestamp)
             cfgEx.aliasName]]⟩ :=
  c3_delete_failure_aborts cfgEx engineAllCreated "aaaa" "bbbb" dsEx none
    "provincias-cc-3" ⟨["provincias-cc-3"], [], true⟩ true (by decide)
    (by decide) rfl (by decide) rfl (Or.inl rfl)

/-- C3 counterexample: at the same concrete scenario, the original
claim's conclusion fails — the run does not end successfully (it ends
with the raised `deleteError`), and no snapshot write appears anywhere
in the trace, even though the alias update (the swap) did happen. -/
theorem c3_cleanup_fatal_counterexample :
    (create_or_reindex cfgEx engineAllCreated "aaaa" "bbbb" (some dsEx) none true
        ⟨["provincias-cc-3"], [], true⟩).result =
      PyResult.exc EngineError.deleteError ∧
    ((create_or_reindex cfgEx engineAllCreated "aaaa" "bbbb" (some dsEx) none true
        ⟨["provincias-cc-3"], [], true⟩).trace.all
      (fun e => !(isWriteBackup e))) = true ∧
    Effect.effUpdateAliases
      [AliasOp.remove "provincias-cc-3" "provincias",
       AliasOp.add "provincias-aaaa-9" "provincias"] ∈
      (create_or_reindex cfgEx engineAllCreated "aaaa" "bbbb" (some dsEx) none true
        ⟨["provincias-cc-3"], [], true⟩).trace := by
  refine ⟨by decide, by decide, by decide⟩

/-- Witness for C5 (amended) at the concrete scenario: primary fetch
failed, valid backup dataset, current alias binding embedding the
newer timestamp 100 — the run still succeeds (freshness skipped) and
its last effect is the snapshot write. -/
theorem c5_forced_backup_run_witness :
    (create_or_reindex cfgEx engineAllCreated "aaaa" "bbbb" none (some dsEx) true
        ⟨["provincias-cc-100"], [], false⟩).result =
      PyResult.ok ReindexOutcome.success ∧
    (create_or_reindex cfgEx engineAllCreated "aaaa" "bbbb" none (some dsEx) true
        ⟨["provincias-cc-100"], [], false⟩).trace.getLast? =
      some (Effect.effWriteBackup dsEx.timestamp dsEx.version) :=
  c5_forced_backup_run cfgEx engineAllCreated "aaaa" "bbbb" dsEx
    ⟨["provincias-cc-100"], [], false⟩ (by decide) (by decide) rfl

/-- C5 counterexample: at that same scenario the pipeline does complete
from the backup source with the freshness comparison skipped (the
current binding embeds timestamp 100 > 9 and the run still succeeds),
but the snapshot file IS rewritten: the backup-write effect occurs,
contradicting the claim's "the snapshot file is not rewritten". -/
theorem c5_snapshot_rewritten_counterexample :
    (create_or_reindex cfgEx engineAllCreated "aaaa" "bbbb" none (some dsEx) true
        ⟨["provincias-cc-100"], [], false⟩).result =
      PyResult.ok ReindexOutcome.success ∧
    Effect.effWriteBackup 9 "2.1.0" ∈
      (create_or_reindex cfgEx engineAllCreated "aaaa" "bbbb" none (some dsEx) true
        ⟨["provincias-cc-100"], [], false⟩).trace := by
  refine ⟨by decide, by decide⟩

/-- C8: the batch run processes every collection: the report has one
entry per collection, and each entry is exactly the result of processing
that collection alone — in particular a raised exception in any
collection is caught (it appears as that entry's `result`) and has no
influence on whether or how the remaining collections are attempted. -/
theorem c8_batch_isolation (engine : Nat → Action → BulkResponse)
    (forced : Bool) (cols : List CollectionRun) :
    (run_index engine forced cols).length = cols.length ∧
    ∀ i : Nat, (run_index engine forced cols)[i]? =
      (cols[i]?).map (process_collection engine forced) := by
  refine ⟨by simp [run_index], fun i => by simp [run_index]⟩

end Georef
